import Mathlib

/-!
Shallow embedding of the pagination/caching session loop of `gsearch.py`
(repository `cumulus13/gsearch`).

The embedding follows the source file `src/gsearch.py`:
the class `GoogleSearcher` becomes the state type `Searcher` together with
the state-passing function `search`; the interactive `while True` loop of
`main` becomes the step function `stepLoop`; user input, HTTP fetch
outcomes and file-write outcomes are passed in as explicit oracle
arguments.  An uncaught Python exception is modelled by the `crash`
results.
-/

set_option autoImplicit false

namespace GSearch

/-- A search result item: the `title` and `link` fields of one element of
the API response's `items` array (the source reads `item['title']` and
`item['link']`). -/
structure Item where
  title : String
  link : String
deriving DecidableEq, Repr, Inhabited

/-- The parts of a parsed JSON response that `GoogleSearcher.search` reads:
the optional `items` array, and `searchInformation.totalResults`
(present in every well-formed payload the code consumes; read only when
`page == 1`). -/
structure Payload where
  items : Option (List Item)
  totalResults : Nat
deriving DecidableEq, Repr

/-- Outcome of the `session.get(...)` call followed by `response.json()`
(src/gsearch.py lines 64-65): either a parsed payload, or a raised
exception (network failure, or a body that is not JSON).  A non-2xx HTTP
status does not raise in `requests`; it yields an `ok` payload whose JSON
body lacks `items`. -/
inductive FetchResult where
  | ok (data : Payload)
  | exn
deriving DecidableEq, Repr

/-- The mutable state of a `GoogleSearcher` instance: the fields assigned
in `__init__` (src/gsearch.py lines 34-40) that the session logic reads
and writes.  `cached_pages` is the Python dict `page -> items`, modelled
as an association list with first-match lookup. -/
structure Searcher where
  cached_pages : List (Nat × List Item)
  total_pages : Nat
  total_results : Nat
  last_data : Option Payload
deriving DecidableEq, Repr

/-- A freshly constructed `GoogleSearcher(...)`: empty cache,
`total_pages = 1`, `total_results = 0`, `last_data = None`. -/
def initSearcher : Searcher :=
  { cached_pages := [], total_pages := 1, total_results := 0, last_data := none }

/-- Lookup in the cache dict (`page in self.cached_pages` /
`self.cached_pages[page]`): first matching key wins. -/
def lookupPage : List (Nat × List Item) → Nat → Option (List Item)
  | [], _ => none
  | (q, its) :: rest, p => if q = p then some its else lookupPage rest p

/-- The dict assignment `self.cached_pages[page] = items`, observed through
`lookupPage` (the code never iterates over the dict). -/
def insertPage (m : List (Nat × List Item)) (p : Nat) (its : List Item) :
    List (Nat × List Item) :=
  (p, its) :: m

/-- Result of one call to `GoogleSearcher.search`: either the returned
items list, or an uncaught exception escaping the method. -/
inductive SearchRes where
  | ok (items : List Item)
  | crash
deriving DecidableEq, Repr

/-- `GoogleSearcher.search(query, page, per_page)` (src/gsearch.py lines
42-86), as a state-passing function.  The query string does not influence
the modelled state, so it is left implicit in the fetch oracle.

Arguments beyond the state: the outcome of the HTTP fetch that would be
performed on a cache miss, the page and per-page numbers, whether a save
directory is configured (`self.save_dir`), and whether the file write in
`save_to_file` would succeed (that function has no exception handler, so
a failed write raises out of `search`).

Returns the result, the updated state, and whether a network request was
issued.  Paths:
* cache hit: the cached list is returned unchanged, no network request;
* fetch raises: the exception propagates, state unchanged;
* payload without `items` and `last_data` is `None`: the code rebinds
  `data = None` and then dereferences it (`data["searchInformation"]` on
  page 1, `data.get("items", [])` otherwise), raising; state unchanged;
* otherwise: on page 1 the totals are (re)computed from the payload in
  use, the items list is cached, a configured save either succeeds or
  raises, and finally `last_data` is updated and the items returned. -/
def search (s : Searcher) (fetch : FetchResult) (page per_page : Nat)
    (saveConfigured saveSucceeds : Bool) : SearchRes × Searcher × Bool :=
  match lookupPage s.cached_pages page with
  | some items => (.ok items, s, false)
  | none =>
    match fetch with
    | .exn => (.crash, s, true)
    | .ok d =>
      match (if d.items.isSome then some d else s.last_data) with
      | none => (.crash, s, true)
      | some data =>
        let s1 :=
          if page = 1 then
            { s with
                total_results := data.totalResults
                total_pages := min ((data.totalResults + per_page - 1) / per_page) 10 }
          else s
        let items := data.items.getD []
        let s2 := { s1 with cached_pages := insertPage s1.cached_pages page items }
        if saveConfigured && !saveSucceeds then
          (.crash, s2, true)
        else
          (.ok items, { s2 with last_data := some data }, true)

/-! ### String primitives used by the interactive loop

The loop reads `cmd = input().strip().lower()` and then tests
`cmd == "n"`, `cmd.startswith("g")`, `cmd.split()`, `cmd.isdigit()`,
`int(cmd)`.  These Python string operations are modelled directly on the
character list of the Lean string; lowering and the digit predicate are
ASCII, which is where the loop's comparisons live. -/

/-- Value of an ASCII digit character. -/
def digitVal (c : Char) : Nat := c.toNat - 48

/-- Decimal value of a digit-character list, as computed by `int(...)` on
a pure-digit string. -/
def digitsToNat (l : List Char) : Nat :=
  l.foldl (fun n c => n * 10 + digitVal c) 0

/-- Python `str.isdigit()`: non-empty and all digit characters. -/
def pyIsDigit (s : String) : Bool :=
  !s.data.isEmpty && s.data.all (·.isDigit)

/-- Python `str.lower()` on one character (ASCII range; the loop only
compares against ASCII tokens). -/
def pyToLower (c : Char) : Char :=
  if 65 ≤ c.toNat ∧ c.toNat ≤ 90 then Char.ofNat (c.toNat + 32) else c

/-- Python `str.lower()`. -/
def pyLower (s : String) : String := ⟨s.data.map pyToLower⟩

/-- Python `str.strip()`: drop leading and trailing whitespace. -/
def pyStrip (s : String) : String :=
  ⟨((s.data.dropWhile Char.isWhitespace).reverse.dropWhile Char.isWhitespace).reverse⟩

/-- The processing of a raw input line at the prompt:
`input("> ").strip().lower()` (src/gsearch.py line 195). -/
def stripLower (raw : String) : String := pyLower (pyStrip raw)

/-- Helper for Python `str.split()`: split on whitespace runs, dropping
empty fields; `acc` holds the characters of the current field, reversed. -/
def wsSplitAux : List Char → List Char → List String
  | [], acc => if acc.isEmpty then [] else [⟨acc.reverse⟩]
  | c :: rest, acc =>
    if c.isWhitespace then
      if acc.isEmpty then wsSplitAux rest [] else ⟨acc.reverse⟩ :: wsSplitAux rest []
    else wsSplitAux rest (c :: acc)

/-- Python `str.split()` with no argument. -/
def pySplitWs (s : String) : List String := wsSplitAux s.data []

/-- Decimal value of a digit list if it is non-empty and all digits. -/
def pyIntOfDigits? (l : List Char) : Option Int :=
  if !l.isEmpty && l.all (·.isDigit) then some (digitsToNat l) else none

/-- Python `int(str)`: optional surrounding whitespace, optional sign,
then decimal digits; `none` models the `ValueError` raised otherwise. -/
def pyInt? (s : String) : Option Int :=
  match (pyStrip s).data with
  | '-' :: rest => (pyIntOfDigits? rest).map (fun n => -n)
  | '+' :: rest => pyIntOfDigits? rest
  | l => pyIntOfDigits? l

/-! ### The interactive loop of `main` -/

/-- State carried between iterations of the `while True` loop in `main`
(src/gsearch.py lines 180-224): the current `GoogleSearcher` instance,
the current `query_str`, and the current `page`. -/
structure LoopState where
  searcher : Searcher
  query : String
  page : Nat
deriving DecidableEq, Repr

/-- Observable side effect of one loop iteration, beyond rendering the
page: the messages printed by the command dispatch, and the hand-off of a
URL to `open_in_browser`. -/
inductive Effect where
  | noEffect
  | openedBrowser (url : String)
  | invalidNumber
  | invalidGotoPage
  | gotoFormatError
  | unknownCommand
deriving DecidableEq, Repr

/-- Result of one iteration of the loop: continue with a new state and an
observed effect, leave the loop (`break`, or no items), or die on an
uncaught exception. -/
inductive StepResult where
  | next (st : LoopState) (eff : Effect)
  | exit
  | crash
deriving DecidableEq, Repr

/-- The command dispatch in `main`: the `if`/`elif` chain of
src/gsearch.py lines 197-224, applied to the processed command `cmd`,
given the searcher `s2` and item list produced by this iteration's
`search` call.  Mirrors the source exactly: the guards
`page < total_pages` and `page > 1` are part of the `n`/`p` tests, the
goto branch triggers on any command whose first character is `g` (with
`gotoInput` the line the `Goto page: ` prompt would read when the
command has no second token), and the final `else` rebinds `query_str`
and replaces the searcher with a fresh instance while leaving `page`
untouched. -/
def dispatch (st : LoopState) (s2 : Searcher) (items : List Item)
    (cmd gotoInput : String) : StepResult :=
  if cmd = "n" ∧ st.page < s2.total_pages then
    .next ⟨s2, st.query, st.page + 1⟩ .noEffect
  else if cmd = "p" ∧ 1 < st.page then
    .next ⟨s2, st.query, st.page - 1⟩ .noEffect
  else if cmd.data.head? = some 'g' then
    let toks := pySplitWs cmd
    let gstr := if 1 < toks.length then toks.getD 1 "" else gotoInput
    match pyInt? gstr with
    | none => .next ⟨s2, st.query, st.page⟩ .gotoFormatError
    | some k =>
      if 1 ≤ k ∧ k ≤ (s2.total_pages : Int) then
        .next ⟨s2, st.query, k.toNat⟩ .noEffect
      else
        .next ⟨s2, st.query, st.page⟩ .invalidGotoPage
  else if cmd ∈ ["q", "quit", "e", "exit"] then .exit
  else if pyIsDigit cmd then
    let idx := digitsToNat cmd.data
    if 1 ≤ idx ∧ idx ≤ items.length then
      .next ⟨s2, st.query, st.page⟩ (.openedBrowser ((items.getD (idx - 1) default).link))
    else
      .next ⟨s2, st.query, st.page⟩ .invalidNumber
  else if cmd ≠ "" then
    .next ⟨initSearcher, cmd, st.page⟩ .noEffect
  else
    .next ⟨s2, st.query, st.page⟩ .unknownCommand

/-- One iteration of the `while True` loop in `main` (src/gsearch.py
lines 181-224): call `search`, leave the loop if it returned no items,
otherwise read a line at the `> ` prompt, strip and lowercase it, and
dispatch on it. -/
def stepLoop (pp : Nat) (st : LoopState) (fetch : FetchResult)
    (saveConfigured saveSucceeds : Bool) (raw gotoInput : String) : StepResult :=
  match search st.searcher fetch st.page pp saveConfigured saveSucceeds with
  | (.crash, _, _) => .crash
  | (.ok items, s2, _) =>
    if items = [] then .exit
    else dispatch st s2 items (stripLower raw) gotoInput

/-- States of the interactive loop reachable from its entry point:
`main` enters the loop with a fresh searcher, the command-line query, and
`page = 1`; each further state arises from an iteration that neither
broke out of the loop nor crashed. -/
inductive Reachable (pp : Nat) (saveConfigured : Bool) : LoopState → Prop where
  | init (q : String) : Reachable pp saveConfigured ⟨initSearcher, q, 1⟩
  | step {st st' : LoopState} {f : FetchResult} {so : Bool} {raw gin : String}
      {eff : Effect} :
      Reachable pp saveConfigured st →
      stepLoop pp st f saveConfigured so raw gin = .next st' eff →
      Reachable pp saveConfigured st'

/-- Uppercase ASCII letter (the "uppercase letter" of the informal
claims; the loop's own comparisons are all against ASCII tokens). -/
def isUpperAscii (c : Char) : Bool := decide (65 ≤ c.toNat ∧ c.toNat ≤ 90)

/-- Modelled from the spec's wording, for comparison with the code: the
reserved command tokens of the transition table — `n`, `p`, `q`, `quit`,
`e`, `exit` (case-insensitively, hence compared after lowercasing) and
the goto forms, i.e. `g` alone or `g` followed by a space and more text
(`g <k>` and the invalid `g ...` row). -/
def specReservedToken (cmd : String) : Bool :=
  decide (cmd ∈ ["n", "p", "q", "quit", "e", "exit"]) || decide (cmd = "g") ||
    decide (cmd.data.take 2 = ['g', ' '])

/-- Arguments of one `search` call, for reasoning about an arbitrary
remainder of a session's lifetime. -/
structure CallArgs where
  fetch : FetchResult
  page : Nat
  per_page : Nat
  saveConfigured : Bool
  saveSucceeds : Bool

/-- Thread a searcher state through an arbitrary sequence of `search`
calls (whatever results they produce). -/
def runCalls (s : Searcher) : List CallArgs → Searcher
  | [] => s
  | c :: cs => runCalls (search s c.fetch c.page c.per_page c.saveConfigured c.saveSucceeds).2.1 cs

/-! ### Helper lemmas about the cache and the session counters -/

theorem lookupPage_insertPage_self (m : List (Nat × List Item)) (p : Nat)
    (its : List Item) : lookupPage (insertPage m p its) p = some its := by
  simp [insertPage, lookupPage]

theorem lookupPage_insertPage_ne (m : List (Nat × List Item)) {p q : Nat}
    (its : List Item) (h : q ≠ p) :
    lookupPage (insertPage m q its) p = lookupPage m p := by
  simp [insertPage, lookupPage, h]

/-- A cache hit returns the cached list, leaves the state untouched and
performs no network request. -/
theorem search_cache_hit {s : Searcher} {p : Nat} {its : List Item}
    (h : lookupPage s.cached_pages p = some its)
    (f : FetchResult) (pp : Nat) (sc so : Bool) :
    search s f p pp sc so = (.ok its, s, false) := by
  simp [search, h]

/-- A successful `search` call leaves the returned items cached under the
requested page. -/
theorem search_ok_cached {s s' : Searcher} {f : FetchResult} {p pp : Nat}
    {sc so b : Bool} {its : List Item}
    (h : search s f p pp sc so = (.ok its, s', b)) :
    lookupPage s'.cached_pages p = some its := by
  rcases hl : lookupPage s.cached_pages p with _ | cached
  · cases f with
    | exn => simp [search, hl] at h
    | ok d =>
      rcases hd : (if d.items.isSome then some d else s.last_data) with _ | data
      · simp [search, hl, hd] at h
      · rcases hsave : sc && !so with _ | _
        · simp [search, hl, hd, hsave] at h
          obtain ⟨hits, hs', -⟩ := h
          subst hs'
          by_cases hp1 : p = 1 <;> simp [hp1, hits, lookupPage_insertPage_self]
        · simp [search, hl, hd, hsave] at h
  · simp [search, hl] at h
    obtain ⟨h1, h2, -⟩ := h
    subst h2
    rw [hl, h1]

/-- Any `search` call preserves an existing cache entry. -/
theorem search_preserves_cached {s : Searcher} {p : Nat} {its : List Item}
    (h : lookupPage s.cached_pages p = some its)
    (f : FetchResult) (q pp : Nat) (sc so : Bool) :
    lookupPage (search s f q pp sc so).2.1.cached_pages p = some its := by
  rcases hl : lookupPage s.cached_pages q with _ | cached
  · have hqp : q ≠ p := fun hqp => by rw [hqp, h] at hl; cases hl
    cases f with
    | exn => simpa [search, hl] using h
    | ok d =>
      rcases hd : (if d.items.isSome then some d else s.last_data) with _ | data
      · simpa [search, hl, hd] using h
      · by_cases hq1 : q = 1
        · subst hq1
          rcases hsave : sc && !so with _ | _ <;>
            simp [search, hl, hd, hsave, lookupPage_insertPage_ne _ _ hqp, h]
        · rcases hsave : sc && !so with _ | _ <;>
            simp [search, hl, hd, hsave, hq1, lookupPage_insertPage_ne _ _ hqp, h]
  · simpa [search, hl] using h

/-- Once page 1 is cached, no later `search` call changes the totals. -/
theorem search_total_pages_stable {s : Searcher} {its1 : List Item}
    (h1 : lookupPage s.cached_pages 1 = some its1)
    (f : FetchResult) (q pp : Nat) (sc so : Bool) :
    (search s f q pp sc so).2.1.total_pages = s.total_pages := by
  rcases hl : lookupPage s.cached_pages q with _ | cached
  · have hq1 : q ≠ 1 := fun hq => by rw [hq, h1] at hl; cases hl
    cases f with
    | exn => simp [search, hl]
    | ok d =>
      rcases hd : (if d.items.isSome then some d else s.last_data) with _ | data
      · simp [search, hl, hd]
      · rcases hsave : sc && !so with _ | _ <;>
          simp [search, hl, hd, hsave, hq1]
  · simp [search, hl]

theorem runCalls_preserves_cached {s : Searcher} {p : Nat} {its : List Item}
    (h : lookupPage s.cached_pages p = some its) (cs : List CallArgs) :
    lookupPage (runCalls s cs).cached_pages p = some its := by
  induction cs generalizing s with
  | nil => exact h
  | cons c cs ih =>
    exact ih (search_preserves_cached h c.fetch c.page c.per_page c.saveConfigured c.saveSucceeds)

theorem runCalls_total_pages_stable {s : Searcher} {its1 : List Item}
    (h1 : lookupPage s.cached_pages 1 = some its1) (cs : List CallArgs) :
    (runCalls s cs).total_pages = s.total_pages := by
  induction cs generalizing s with
  | nil => rfl
  | cons c cs ih =>
    have hpres := search_preserves_cached h1 c.fetch c.page c.per_page c.saveConfigured c.saveSucceeds
    calc (runCalls (search s c.fetch c.page c.per_page c.saveConfigured c.saveSucceeds).2.1 cs).total_pages
        = (search s c.fetch c.page c.per_page c.saveConfigured c.saveSucceeds).2.1.total_pages :=
          ih hpres
      _ = s.total_pages := search_total_pages_stable h1 c.fetch c.page c.per_page c.saveConfigured c.saveSucceeds

/-- A `search` call for page 1 that misses the cache and succeeds sets the
session counters from the payload the code ended up using: afterward the
relation between `total_pages`, `total_results` and `per_page` written on
src/gsearch.py line 75 holds, and a network request was made. -/
theorem search_page_one_totals {s s' : Searcher} {f : FetchResult} {pp : Nat}
    {sc so b : Bool} {its : List Item}
    (hmiss : lookupPage s.cached_pages 1 = none)
    (hok : search s f 1 pp sc so = (.ok its, s', b)) :
    s'.total_pages = min ((s'.total_results + pp - 1) / pp) 10 ∧ b = true := by
  cases f with
  | exn => simp [search, hmiss] at hok
  | ok d =>
    rcases hd : (if d.items.isSome then some d else s.last_data) with _ | data
    · simp [search, hmiss, hd] at hok
    · rcases hsave : sc && !so with _ | _
      · simp [search, hmiss, hd, hsave] at hok
        obtain ⟨-, hs', hb⟩ := hok
        subst hs'
        exact ⟨rfl, hb⟩
      · simp [search, hmiss, hd, hsave] at hok

/-- Lowercasing a character never produces an uppercase ASCII letter. -/
theorem isUpperAscii_pyToLower (c : Char) : isUpperAscii (pyToLower c) = false := by
  unfold pyToLower
  by_cases h : 65 ≤ c.toNat ∧ c.toNat ≤ 90
  · rw [if_pos h]
    obtain ⟨h1, h2⟩ := h
    unfold isUpperAscii
    generalize c.toNat = t at h1 h2 ⊢
    interval_cases t <;> decide
  · rw [if_neg h]
    exact decide_eq_false h

/-- No character of a lowercased string is an uppercase ASCII letter. -/
theorem isUpperAscii_of_mem_pyLower (s : String) :
    ∀ c ∈ (pyLower s).data, isUpperAscii c = false := by
  intro c hc
  have : (pyLower s).data = s.data.map pyToLower := rfl
  rw [this] at hc
  obtain ⟨c', -, rfl⟩ := List.mem_map.1 hc
  exact isUpperAscii_pyToLower c'

/-- The command dispatch either keeps the current query or installs the
processed command itself as the new query (final `else` branch). -/
theorem dispatch_query {st : LoopState} {s2 : Searcher} {items : List Item}
    {cmd gin : String} {st' : LoopState} {eff : Effect}
    (h : dispatch st s2 items cmd gin = .next st' eff) :
    st'.query = st.query ∨ (st'.query = cmd ∧ st'.searcher = initSearcher ∧ st'.page = st.page) := by
  unfold dispatch at h
  split at h
  · cases h; exact .inl rfl
  · split at h
    · cases h; exact .inl rfl
    · split at h
      · dsimp only at h
        split at h
        · cases h; exact .inl rfl
        · split at h
          · cases h; exact .inl rfl
          · cases h; exact .inl rfl
      · split at h
        · exact absurd h (by simp)
        · split at h
          · dsimp only at h
            split at h
            · cases h; exact .inl rfl
            · cases h; exact .inl rfl
          · split at h
            · cases h; exact .inr ⟨rfl, rfl, rfl⟩
            · cases h; exact .inl rfl

/-- Conditions under which the dispatch reaches the final `else` branch
and installs the processed command as a new query on a fresh searcher,
with the page number untouched. -/
theorem dispatch_new_query {st : LoopState} {s2 : Searcher} {items : List Item}
    {cmd : String} (gin : String)
    (h1 : ¬(cmd = "n" ∧ st.page < s2.total_pages))
    (h2 : ¬(cmd = "p" ∧ 1 < st.page))
    (h3 : ¬cmd.data.head? = some 'g')
    (h4 : cmd ∉ ["q", "quit", "e", "exit"])
    (h5 : pyIsDigit cmd = false)
    (h6 : cmd ≠ "") :
    dispatch st s2 items cmd gin = .next ⟨initSearcher, cmd, st.page⟩ .noEffect := by
  unfold dispatch
  rw [if_neg h1, if_neg h2, if_neg h3, if_neg h4, if_neg (by simp [h5]), if_pos h6]

/-- A pure-digit command is none of the reserved tokens the dispatch
tests before the `isdigit` branch. -/
theorem pyIsDigit_ne_reserved {cmd : String} (hd : pyIsDigit cmd = true) :
    cmd ≠ "n" ∧ cmd ≠ "p" ∧ ¬cmd.data.head? = some 'g' ∧
      cmd ∉ ["q", "quit", "e", "exit"] := by
  refine ⟨?_, ?_, ?_, ?_⟩
  · rintro rfl; exact absurd hd (by decide)
  · rintro rfl; exact absurd hd (by decide)
  · intro hg
    unfold pyIsDigit at hd
    rcases hcd : cmd.data with _ | ⟨c, l⟩
    · rw [hcd] at hg; cases hg
    · rw [hcd] at hg hd
      simp only [List.head?_cons, Option.some.injEq] at hg
      subst hg
      simp at hd
  · intro hmem
    simp only [List.mem_cons, List.mem_singleton, List.not_mem_nil, or_false] at hmem
    rcases hmem with rfl | rfl | rfl | rfl <;> exact absurd hd (by decide)

/-- On a pure-digit command the dispatch reaches the selection branch:
it opens the selected link when the number is within the current item
list, reports an invalid number otherwise, and in both cases keeps the
searcher, query and page. -/
theorem dispatch_digit {st : LoopState} {s2 : Searcher} {items : List Item}
    {cmd : String} (gin : String) (hd : pyIsDigit cmd = true) :
    dispatch st s2 items cmd gin =
      (if 1 ≤ digitsToNat cmd.data ∧ digitsToNat cmd.data ≤ items.length then
        .next ⟨s2, st.query, st.page⟩
          (.openedBrowser ((items.getD (digitsToNat cmd.data - 1) default).link))
      else
        .next ⟨s2, st.query, st.page⟩ .invalidNumber) := by
  obtain ⟨h1, h2, h3, h4⟩ := pyIsDigit_ne_reserved hd
  unfold dispatch
  rw [if_neg (fun hc => h1 hc.1), if_neg (fun hc => h2 hc.1), if_neg h3, if_neg h4,
    if_pos hd]

/-- A raised fetch exception on a cache miss escapes `search` unhandled:
no fallback, no state change, and the loop above it dies. -/
theorem search_exn_crash {s : Searcher} {p : Nat}
    (hmiss : lookupPage s.cached_pages p = none) (pp : Nat) (sc so : Bool) :
    search s .exn p pp sc so = (.crash, s, true) := by
  simp [search, hmiss]

/-- When the payload has no `items` key and a previous payload exists,
`search` falls back to it and returns its item list. -/
theorem search_fallback {s : Searcher} {p : Nat} {d prev : Payload}
    (hmiss : lookupPage s.cached_pages p = none)
    (hno : d.items = none) (hprev : s.last_data = some prev) (pp : Nat) :
    (search s (.ok d) p pp false true).1 = .ok (prev.items.getD []) := by
  by_cases hp1 : p = 1
  · subst hp1; simp [search, hmiss, hno, hprev]
  · simp [search, hmiss, hno, hprev, hp1]

/-- A failing file write after a successful fetch crashes `search`: the
fetched items are already cached, but the method does not return and
`last_data` is not updated. -/
theorem search_save_failure {s : Searcher} {p : Nat} {d : Payload} {its : List Item}
    (hmiss : lookupPage s.cached_pages p = none)
    (hits : d.items = some its) (pp : Nat) :
    (search s (.ok d) p pp true false).1 = .crash ∧
    lookupPage (search s (.ok d) p pp true false).2.1.cached_pages p = some its ∧
    (search s (.ok d) p pp true false).2.1.last_data = s.last_data := by
  by_cases hp1 : p = 1
  · subst hp1; simp [search, hmiss, hits, lookupPage_insertPage_self]
  · simp [search, hmiss, hits, hp1, lookupPage_insertPage_self]

/-- A crashing `search` call crashes the loop iteration. -/
theorem stepLoop_crash {pp : Nat} {st : LoopState} {f : FetchResult}
    {sc so : Bool} {s2 : Searcher} {b : Bool} (raw gin : String)
    (hcrash : search st.searcher f st.page pp sc so = (.crash, s2, b)) :
    stepLoop pp st f sc so raw gin = .crash := by
  unfold stepLoop
  rw [hcrash]

/-- A successful `search` call makes the iteration exit on an empty item
list and dispatch the processed command otherwise. -/
theorem stepLoop_ok_cases {pp : Nat} {st : LoopState} {f : FetchResult}
    {sc so : Bool} {its : List Item} {s2 : Searcher} {b : Bool} (raw gin : String)
    (hok : search st.searcher f st.page pp sc so = (.ok its, s2, b)) :
    stepLoop pp st f sc so raw gin =
      if its = [] then .exit else dispatch st s2 its (stripLower raw) gin := by
  unfold stepLoop
  rw [hok]

/-- With a successful, non-empty `search` result the iteration reduces to
the command dispatch. -/
theorem stepLoop_dispatch {pp : Nat} {st : LoopState} {f : FetchResult}
    {sc so : Bool} {its : List Item} {s2 : Searcher} {b : Bool} (raw gin : String)
    (hok : search st.searcher f st.page pp sc so = (.ok its, s2, b))
    (hne : its ≠ []) :
    stepLoop pp st f sc so raw gin = dispatch st s2 its (stripLower raw) gin := by
  rw [stepLoop_ok_cases raw gin hok, if_neg hne]

/-! ### The claims -/

/-- Claim C1, counterexample.  The claim says that entering non-reserved,
non-digit, non-empty text at the prompt continues in Browsing(1) of a
brand-new session, with currentPage reset to 1.  In the code the `else`
branch of the dispatch replaces `query_str` and the searcher but never
touches `page`: here the loop sits on page 2 (cached), the user types a
new query, and the next state still has page 2, not 1. -/
theorem C1_counterexample :
    stepLoop 10
        ⟨{ cached_pages := [(2, [⟨"t", "u"⟩])], total_pages := 5,
           total_results := 50, last_data := none }, "old", 2⟩
        .exn false true "hello world" "" =
      .next ⟨initSearcher, "hello world", 2⟩ .noEffect ∧
    (LoopState.mk initSearcher "hello world" 2).page ≠ 1 := by
  constructor <;> decide

/-- Claim C1, amended.  Entering non-empty text at the prompt that
reaches the final `else` branch (it is not `n`/`p`, does not start with
`g`, is not a quit token and is not a pure-digit string) binds the text
as the new query of a brand-new session whose cache is empty — so every
page cached for the old query is discarded and never returned again —
but `currentPage` keeps its prior value instead of being reset to 1. -/
theorem C1_new_query_replaces_session (pp : Nat) (st : LoopState) (f : FetchResult)
    (sc so : Bool) (raw gin : String) (its : List Item) (s2 : Searcher) (b : Bool)
    (hok : search st.searcher f st.page pp sc so = (.ok its, s2, b))
    (hne : its ≠ [])
    (hn : stripLower raw ≠ "n") (hp : stripLower raw ≠ "p")
    (hg : ¬(stripLower raw).data.head? = some 'g')
    (hq : stripLower raw ∉ ["q", "quit", "e", "exit"])
    (hdig : pyIsDigit (stripLower raw) = false)
    (hemp : stripLower raw ≠ "") :
    stepLoop pp st f sc so raw gin = .next ⟨initSearcher, stripLower raw, st.page⟩ .noEffect ∧
    (∀ q : Nat, lookupPage initSearcher.cached_pages q = none) := by
  constructor
  · rw [stepLoop_dispatch raw gin hok hne]
    exact dispatch_new_query gin (fun hc => hn hc.1) (fun hc => hp hc.1) hg hq hdig hemp
  · intro q; rfl

/-- Witness for C1's amended theorem at a concrete input: on page 2 with
that page cached, typing `Rust Tutorial` starts a new session bound to
the lowercased text, still on page 2. -/
theorem C1_witness :
    stepLoop 10
        ⟨{ cached_pages := [(2, [⟨"t", "u"⟩])], total_pages := 5,
           total_results := 50, last_data := none }, "old", 2⟩
        .exn false true "Rust Tutorial" "" =
      .next ⟨initSearcher, "rust tutorial", 2⟩ .noEffect :=
  (C1_new_query_replaces_session 10
    ⟨{ cached_pages := [(2, [⟨"t", "u"⟩])], total_pages := 5,
       total_results := 50, last_data := none }, "old", 2⟩
    .exn false true "Rust Tutorial" "" [⟨"t", "u"⟩]
    { cached_pages := [(2, [⟨"t", "u"⟩])], total_pages := 5,
      total_results := 50, last_data := none } false
    (by decide) (by decide) (by decide) (by decide) (by decide) (by decide)
    (by decide) (by decide)).1

/-- Claim C2: after the genuine (cache-missing, successful) fetch of
page 1, the session's `total_pages` equals
`min(ceil(total_results / per_page), 10)`; the computation came from a
real network request, and no later `search` call of the session's
lifetime ever changes `total_pages` again (page 1 is cached from then
on, so the `page == 1` branch can only be reached through the genuine
fetch). -/
theorem C2_total_pages (pp : Nat) (s s2 : Searcher) (f : FetchResult)
    (sc so b : Bool) (its : List Item)
    (hpp1 : 1 ≤ pp) (hpp10 : pp ≤ 10)
    (hmiss : lookupPage s.cached_pages 1 = none)
    (hok : search s f 1 pp sc so = (.ok its, s2, b)) :
    s2.total_pages = min (s2.total_results ⌈/⌉ pp) 10 ∧
    b = true ∧
    ∀ cs : List CallArgs, (runCalls s2 cs).total_pages = s2.total_pages := by
  obtain ⟨hformula, hb⟩ := search_page_one_totals hmiss hok
  refine ⟨?_, hb, fun cs => runCalls_total_pages_stable (search_ok_cached hok) cs⟩
  rw [Nat.ceilDiv_eq_add_pred_div]
  exact hformula

/-- Witness for C2 at the spec's own scenario `totalResults = 23`,
`perPage = 10`: the resulting session has `total_pages = 3 = min(⌈23/10⌉, 10)`. -/
theorem C2_witness :
    ({ cached_pages := [(1, [⟨"t", "u"⟩])], total_pages := 3, total_results := 23,
       last_data := some ⟨some [⟨"t", "u"⟩], 23⟩ } : Searcher).total_pages =
      min (({ cached_pages := [(1, [⟨"t", "u"⟩])], total_pages := 3, total_results := 23,
              last_data := some ⟨some [⟨"t", "u"⟩], 23⟩ } : Searcher).total_results ⌈/⌉ 10) 10 :=
  (C2_total_pages 10 initSearcher
    { cached_pages := [(1, [⟨"t", "u"⟩])], total_pages := 3, total_results := 23,
      last_data := some ⟨some [⟨"t", "u"⟩], 23⟩ }
    (.ok ⟨some [⟨"t", "u"⟩], 23⟩) false true true [⟨"t", "u"⟩]
    (by decide) (by decide) rfl (by decide)).1

/-- Claim C3: within one session, once a `search` call for page `p`
returned an item list, that exact list stays cached for the rest of the
session's lifetime (no eviction, refresh or overwrite, whatever calls
follow), and a repeated `search` for `p` performs no network request,
leaves the state untouched and returns exactly the stored sequence. -/
theorem C3_cache_idempotent (s s2 : Searcher) (f : FetchResult) (p pp : Nat)
    (sc so b : Bool) (its : List Item)
    (hp : 1 ≤ p)
    (hok : search s f p pp sc so = (.ok its, s2, b)) :
    ∀ (cs : List CallArgs) (f2 : FetchResult) (pp2 : Nat) (sc2 so2 : Bool),
      lookupPage (runCalls s2 cs).cached_pages p = some its ∧
      search (runCalls s2 cs) f2 p pp2 sc2 so2 = (.ok its, runCalls s2 cs, false) := by
  intro cs f2 pp2 sc2 so2
  have hcached := runCalls_preserves_cached (search_ok_cached hok) cs
  exact ⟨hcached, search_cache_hit hcached f2 pp2 sc2 so2⟩

/-- Witness for C3: fetch page 1; after one further (even failing) call
for page 2, page 1 is still cached and re-searching it is a no-I/O cache
hit returning the same list. -/
theorem C3_witness :
    lookupPage (runCalls
        { cached_pages := [(1, [⟨"t", "u"⟩])], total_pages := 3, total_results := 23,
          last_data := some ⟨some [⟨"t", "u"⟩], 23⟩ }
        [⟨.exn, 2, 10, false, true⟩]).cached_pages 1 = some [⟨"t", "u"⟩] ∧
    search (runCalls
        { cached_pages := [(1, [⟨"t", "u"⟩])], total_pages := 3, total_results := 23,
          last_data := some ⟨some [⟨"t", "u"⟩], 23⟩ }
        [⟨.exn, 2, 10, false, true⟩]) (.ok ⟨some [], 0⟩) 1 10 false true =
      (.ok [⟨"t", "u"⟩], runCalls
        { cached_pages := [(1, [⟨"t", "u"⟩])], total_pages := 3, total_results := 23,
          last_data := some ⟨some [⟨"t", "u"⟩], 23⟩ }
        [⟨.exn, 2, 10, false, true⟩], false) :=
  C3_cache_idempotent initSearcher
    { cached_pages := [(1, [⟨"t", "u"⟩])], total_pages := 3, total_results := 23,
      last_data := some ⟨some [⟨"t", "u"⟩], 23⟩ }
    (.ok ⟨some [⟨"t", "u"⟩], 23⟩) 1 10 false true true [⟨"t", "u"⟩]
    (by decide) (by decide)
    [⟨.exn, 2, 10, false, true⟩] (.ok ⟨some [], 0⟩) 10 false true

/-- Claim C4, counterexample.  The claim says every state reachable by
the interactive loop has `currentPage` in `[1, totalPages]`.  Reachable
refutation: start a query whose page 1 reports 20 results (2 pages),
type `n` to move to page 2, then type a new query: the new session is a
fresh searcher with `total_pages = 1` while the loop is still on page 2. -/
theorem C4_counterexample :
    Reachable 10 false ⟨initSearcher, "hello", 2⟩ ∧
    (LoopState.mk initSearcher "hello" 2).searcher.total_pages <
      (LoopState.mk initSearcher "hello" 2).page := by
  constructor
  · have h0 : Reachable 10 false ⟨initSearcher, "x", 1⟩ := .init "x"
    have h1 : Reachable 10 false
        ⟨{ cached_pages := [(1, [⟨"t", "u"⟩])], total_pages := 2, total_results := 20,
           last_data := some ⟨some [⟨"t", "u"⟩], 20⟩ }, "x", 2⟩ :=
      @Reachable.step 10 false ⟨initSearcher, "x", 1⟩
        ⟨{ cached_pages := [(1, [⟨"t", "u"⟩])], total_pages := 2, total_results := 20,
           last_data := some ⟨some [⟨"t", "u"⟩], 20⟩ }, "x", 2⟩
        (.ok ⟨some [⟨"t", "u"⟩], 20⟩) true "n" "" .noEffect h0 (by decide)
    exact @Reachable.step 10 false
      ⟨{ cached_pages := [(1, [⟨"t", "u"⟩])], total_pages := 2, total_results := 20,
         last_data := some ⟨some [⟨"t", "u"⟩], 20⟩ }, "x", 2⟩
      ⟨initSearcher, "hello", 2⟩
      (.ok ⟨some [⟨"t", "u"⟩], 20⟩) true "hello" "" .noEffect h1 (by decide)
  · decide

/-- Claim C4, amended.  The inputs `n` at `page == totalPages` and `p`
at `page == 1` do leave the page number unchanged, but they are not
no-ops: both fall through the guarded `n`/`p` tests into the final
`else` branch, which replaces the session with a brand-new searcher
whose query is the literal text `n` resp. `p`.  Because the new searcher
starts with `total_pages = 1`, the invariant
`currentPage ∈ [1, totalPages]` does not survive such inputs (see the
counterexample). -/
theorem C4_boundary_inputs_start_new_query (pp : Nat) (st : LoopState)
    (f : FetchResult) (sc so : Bool) (gin : String) (its : List Item)
    (s2 : Searcher) (b : Bool)
    (hok : search st.searcher f st.page pp sc so = (.ok its, s2, b))
    (hne : its ≠ []) :
    (∀ raw, stripLower raw = "n" → st.page = s2.total_pages →
      stepLoop pp st f sc so raw gin = .next ⟨initSearcher, "n", st.page⟩ .noEffect) ∧
    (∀ raw, stripLower raw = "p" → st.page = 1 →
      stepLoop pp st f sc so raw gin = .next ⟨initSearcher, "p", st.page⟩ .noEffect) := by
  constructor
  · intro raw hcmd hpage
    rw [stepLoop_dispatch raw gin hok hne, hcmd]
    exact dispatch_new_query gin
      (fun hc => absurd hc.2 (by rw [hpage]; exact lt_irrefl _))
      (fun hc => absurd hc.1 (by decide))
      (by decide) (by decide) (by decide) (by decide)
  · intro raw hcmd hpage
    rw [stepLoop_dispatch raw gin hok hne, hcmd]
    exact dispatch_new_query gin
      (fun hc => absurd hc.1 (by decide))
      (fun hc => by rw [hpage] at hc; exact absurd hc.2 (lt_irrefl 1))
      (by decide) (by decide) (by decide) (by decide)

/-- Witness for C4's amended theorem: on the last page (3 of 3), typing
`n` replaces the session with a brand-new one whose query is `n`,
keeping the page number 3. -/
theorem C4_witness :
    stepLoop 10
        ⟨{ cached_pages := [(3, [⟨"t", "u"⟩])], total_pages := 3, total_results := 23,
           last_data := none }, "old", 3⟩
        .exn false true "n" "" =
      .next ⟨initSearcher, "n", 3⟩ .noEffect :=
  (C4_boundary_inputs_start_new_query 10
    ⟨{ cached_pages := [(3, [⟨"t", "u"⟩])], total_pages := 3, total_results := 23,
       last_data := none }, "old", 3⟩
    .exn false true "" [⟨"t", "u"⟩]
    { cached_pages := [(3, [⟨"t", "u"⟩])], total_pages := 3, total_results := 23,
      last_data := none } false
    (by decide) (by decide)).1 "n" (by decide) rfl

/-- Claim C5, counterexample.  The claim says a fetch failure is
classified as a FetchError and never crashes the loop.  The code has no
exception handling at all around the request or the JSON parse: a raised
exception on the very first fetch propagates out of `search` and kills
the loop. -/
theorem C5_counterexample :
    stepLoop 10 ⟨initSearcher, "some query", 1⟩ .exn false true "n" "" = .crash := by
  decide

/-- Claim C5, amended.  A network or JSON-parse failure raises an
uncaught exception: `search` crashes with its state unchanged (there is
no FetchError classification and no fallback on this path).  Only a
fetched JSON body without an `items` key — which is how a non-2xx HTTP
response manifests, conflated with a zero-result response — falls back
to the last-known-good payload when one exists, returning that payload's
items. -/
theorem C5_fetch_failure_behavior (s : Searcher) (p pp : Nat) (sc so : Bool)
    (hmiss : lookupPage s.cached_pages p = none) :
    search s .exn p pp sc so = (.crash, s, true) ∧
    (∀ d prev : Payload, d.items = none → s.last_data = some prev →
      (search s (.ok d) p pp false true).1 = .ok (prev.items.getD [])) :=
  ⟨search_exn_crash hmiss pp sc so,
    fun _ prev hno hprev => search_fallback hmiss hno hprev pp⟩

/-- Witness for C5's amended theorem: with page 1 cached and a last-good
payload, a fetch exception for page 2 crashes, while an `items`-less
body for page 2 falls back to the previous payload's items. -/
theorem C5_witness :
    search { cached_pages := [(1, [⟨"a", "b"⟩])], total_pages := 4, total_results := 31,
             last_data := some ⟨some [⟨"a", "b"⟩], 31⟩ } .exn 2 10 false true =
      (.crash, { cached_pages := [(1, [⟨"a", "b"⟩])], total_pages := 4, total_results := 31,
                 last_data := some ⟨some [⟨"a", "b"⟩], 31⟩ }, true) ∧
    (search { cached_pages := [(1, [⟨"a", "b"⟩])], total_pages := 4, total_results := 31,
              last_data := some ⟨some [⟨"a", "b"⟩], 31⟩ } (.ok ⟨none, 0⟩) 2 10 false true).1 =
      .ok [⟨"a", "b"⟩] :=
  ⟨(C5_fetch_failure_behavior
      { cached_pages := [(1, [⟨"a", "b"⟩])], total_pages := 4, total_results := 31,
        last_data := some ⟨some [⟨"a", "b"⟩], 31⟩ } 2 10 false true (by decide)).1,
    (C5_fetch_failure_behavior
      { cached_pages := [(1, [⟨"a", "b"⟩])], total_pages := 4, total_results := 31,
        last_data := some ⟨some [⟨"a", "b"⟩], 31⟩ } 2 10 false true (by decide)).2
      ⟨none, 0⟩ ⟨some [⟨"a", "b"⟩], 31⟩ rfl rfl⟩

/-- Claim C6.  The claim (and the spec) say that a response without
result items, in a session with no previously successful payload,
makes `search` return an empty sequence with a warning.  The code
instead rebinds `data = self.last_data`, i.e. `None`, and then
dereferences it — `int(data["searchInformation"]["totalResults"])` on
page 1 — raising a TypeError that escapes `search`: the first conjunct
shows the crash (state unchanged, nothing returned).  The second
conjunct shows the half of the claim the code does implement: with a
previously successful payload the call falls back to it and returns its
items. -/
theorem C6_missing_items_crash :
    search initSearcher (.ok ⟨none, 0⟩) 1 10 false true = (.crash, initSearcher, true) ∧
    (search { cached_pages := [(1, [⟨"x", "y"⟩])], total_pages := 2, total_results := 17,
              last_data := some ⟨some [⟨"x", "y"⟩], 17⟩ } (.ok ⟨none, 0⟩) 2 10 false true).1 =
      .ok [⟨"x", "y"⟩] := by
  constructor <;> decide

/-- Claim C7, counterexample.  The claim says every non-empty input that
matches no reserved token (n, p, the g/goto forms, q, quit, e, exit) and
is not a pure-digit string becomes a new search query, never a goto.
The input `great food` matches none of those tokens — it is not `g` nor
`g <k>` — yet the dispatch, which tests only `cmd.startswith("g")`,
consumes it as a goto command: `int("food")` raises, the handler prints
the format-error message, and the query and session stay unchanged. -/
theorem C7_counterexample :
    specReservedToken "great food" = false ∧
    pyIsDigit "great food" = false ∧
    "great food" ≠ "" ∧
    stepLoop 10
        ⟨{ cached_pages := [(1, [⟨"t", "u"⟩])], total_pages := 5, total_results := 50,
           last_data := none }, "old", 1⟩
        .exn false true "great food" "" =
      .next ⟨{ cached_pages := [(1, [⟨"t", "u"⟩])], total_pages := 5, total_results := 50,
               last_data := none }, "old", 1⟩ .gotoFormatError := by
  refine ⟨by decide, by decide, by decide, by decide⟩

/-- Claim C7, amended.  A non-empty prompt input becomes a new search
query exactly when, after stripping and lowercasing, it is not the
token `n` or `p`, does not begin with the letter `g` (any input starting
with `g`, including multi-word text, is consumed by the goto handler),
is none of q/quit/e/exit, and is not a pure-digit string; such input is
never an error. -/
theorem C7_new_query_condition (pp : Nat) (st : LoopState) (f : FetchResult)
    (sc so : Bool) (raw gin : String) (its : List Item) (s2 : Searcher) (b : Bool)
    (hok : search st.searcher f st.page pp sc so = (.ok its, s2, b))
    (hne : its ≠ [])
    (hn : stripLower raw ≠ "n") (hp : stripLower raw ≠ "p")
    (hg : (stripLower raw).data.head? ≠ some 'g')
    (hq : stripLower raw ∉ ["q", "quit", "e", "exit"])
    (hdig : pyIsDigit (stripLower raw) = false)
    (hemp : stripLower raw ≠ "") :
    stepLoop pp st f sc so raw gin =
      .next ⟨initSearcher, stripLower raw, st.page⟩ .noEffect := by
  rw [stepLoop_dispatch raw gin hok hne]
  exact dispatch_new_query gin (fun hc => hn hc.1) (fun hc => hp hc.1) hg hq hdig hemp

/-- Witness for C7's amended theorem: `lean theorem prover` is treated
as a new query. -/
theorem C7_witness :
    stepLoop 10
        ⟨{ cached_pages := [(1, [⟨"t", "u"⟩])], total_pages := 5, total_results := 50,
           last_data := none }, "old", 1⟩
        .exn false true "lean theorem prover" "" =
      .next ⟨initSearcher, "lean theorem prover", 1⟩ .noEffect :=
  C7_new_query_condition 10
    ⟨{ cached_pages := [(1, [⟨"t", "u"⟩])], total_pages := 5, total_results := 50,
       last_data := none }, "old", 1⟩
    .exn false true "lean theorem prover" "" [⟨"t", "u"⟩]
    { cached_pages := [(1, [⟨"t", "u"⟩])], total_pages := 5, total_results := 50,
      last_data := none } false
    (by decide) (by decide) (by decide) (by decide) (by decide) (by decide) (by decide)
    (by decide)

/-- Claim C8, counterexample.  The claim says a failing results-file
write is reported and non-fatal: `search` still returns the items and
the loop continues.  `save_to_file` has no exception handler, so a
failing `open`/`write` raises out of `search` — nothing is returned —
and the exception kills the loop. -/
theorem C8_counterexample :
    (search initSearcher (.ok ⟨some [⟨"t", "u"⟩], 12⟩) 1 10 true false).1 = .crash ∧
    stepLoop 10 ⟨initSearcher, "some query", 1⟩ (.ok ⟨some [⟨"t", "u"⟩], 12⟩)
      true false "n" "" = .crash := by
  constructor <;> decide

/-- Claim C8, amended.  When a save directory is configured and the file
write fails, the exception propagates uncaught out of `search`: the call
does not return the fetched items (the loop above dies), although the
items were already cached; `last_data` is not updated. -/
theorem C8_save_failure_not_returned (s : Searcher) (p pp : Nat) (d : Payload)
    (its : List Item)
    (hmiss : lookupPage s.cached_pages p = none)
    (hits : d.items = some its) :
    (search s (.ok d) p pp true false).1 = .crash ∧
    lookupPage (search s (.ok d) p pp true false).2.1.cached_pages p = some its ∧
    (search s (.ok d) p pp true false).2.1.last_data = s.last_data :=
  search_save_failure hmiss hits pp

/-- Witness for C8's amended theorem at page 2 of a fresh session. -/
theorem C8_witness :
    (search initSearcher (.ok ⟨some [⟨"c", "d"⟩], 7⟩) 2 10 true false).1 = .crash ∧
    lookupPage (search initSearcher (.ok ⟨some [⟨"c", "d"⟩], 7⟩) 2 10 true false).2.1.cached_pages 2 =
      some [⟨"c", "d"⟩] ∧
    (search initSearcher (.ok ⟨some [⟨"c", "d"⟩], 7⟩) 2 10 true false).2.1.last_data =
      initSearcher.last_data :=
  C8_save_failure_not_returned initSearcher 2 10 ⟨some [⟨"c", "d"⟩], 7⟩ [⟨"c", "d"⟩] rfl rfl

/-- Claim C9: when the processed input is a pure-digit string `d`, the
dispatch hands `items[d-1].link` to the browser launcher exactly when
`1 ≤ d ≤ len(items)` and reports an invalid number otherwise; in both
cases the searcher, the query and the current page are unchanged. -/
theorem C9_digit_selection (pp : Nat) (st : LoopState) (f : FetchResult)
    (sc so : Bool) (raw gin : String) (its : List Item) (s2 : Searcher) (b : Bool)
    (hok : search st.searcher f st.page pp sc so = (.ok its, s2, b))
    (hne : its ≠ [])
    (hd : pyIsDigit (stripLower raw) = true) :
    stepLoop pp st f sc so raw gin =
      (if 1 ≤ digitsToNat (stripLower raw).data ∧
          digitsToNat (stripLower raw).data ≤ its.length then
        .next ⟨s2, st.query, st.page⟩
          (.openedBrowser ((its.getD (digitsToNat (stripLower raw).data - 1) default).link))
      else
        .next ⟨s2, st.query, st.page⟩ .invalidNumber) := by
  rw [stepLoop_dispatch raw gin hok hne]
  exact dispatch_digit gin hd

/-- Witness for C9: with two items on the page, input `2` opens the
second item's link; the state is unchanged. -/
theorem C9_witness :
    stepLoop 10
        ⟨{ cached_pages := [(1, [⟨"t1", "u1"⟩, ⟨"t2", "u2"⟩])], total_pages := 5,
           total_results := 50, last_data := none }, "old", 1⟩
        .exn false true " 2 " "" =
      .next ⟨{ cached_pages := [(1, [⟨"t1", "u1"⟩, ⟨"t2", "u2"⟩])], total_pages := 5,
               total_results := 50, last_data := none }, "old", 1⟩
        (.openedBrowser "u2") :=
  C9_digit_selection 10
    ⟨{ cached_pages := [(1, [⟨"t1", "u1"⟩, ⟨"t2", "u2"⟩])], total_pages := 5,
       total_results := 50, last_data := none }, "old", 1⟩
    .exn false true " 2 " "" [⟨"t1", "u1"⟩, ⟨"t2", "u2"⟩]
    { cached_pages := [(1, [⟨"t1", "u1"⟩, ⟨"t2", "u2"⟩])], total_pages := 5,
      total_results := 50, last_data := none } false
    (by decide) (by decide) (by decide)

/-- Claim C10 (implicit): every line read at the `> ` prompt is stripped
and lowercased before interpretation, so whenever an iteration changes
the query, the new query is the stripped-and-lowercased input and
contains no uppercase ASCII letter — an uppercase query can only come
from the command line, never from the prompt. -/
theorem C10_prompt_query_lowercase (pp : Nat) (st : LoopState) (f : FetchResult)
    (sc so : Bool) (raw gin : String) (st' : LoopState) (eff : Effect)
    (h : stepLoop pp st f sc so raw gin = .next st' eff) :
    st'.query = st.query ∨
      (st'.query = stripLower raw ∧ ∀ c ∈ st'.query.data, isUpperAscii c = false) := by
  rcases hs : search st.searcher f st.page pp sc so with ⟨res, s2, b⟩
  cases res with
  | crash => rw [stepLoop_crash raw gin hs] at h; exact StepResult.noConfusion h
  | ok items =>
    rw [stepLoop_ok_cases raw gin hs] at h
    by_cases hni : items = []
    · rw [if_pos hni] at h; exact StepResult.noConfusion h
    · rw [if_neg hni] at h
      rcases dispatch_query h with hq | ⟨hq, -, -⟩
      · exact .inl hq
      · refine .inr ⟨hq, ?_⟩
        rw [hq]
        exact isUpperAscii_of_mem_pyLower (pyStrip raw)

/-- Witness for C10: typing `  HeLLo World  ` starts a session whose
query is the lowercase `hello world`. -/
theorem C10_witness :
    (LoopState.mk initSearcher "hello world" 1).query = "old" ∨
      ((LoopState.mk initSearcher "hello world" 1).query = stripLower "  HeLLo World  " ∧
        ∀ c ∈ (LoopState.mk initSearcher "hello world" 1).query.data, isUpperAscii c = false) :=
  C10_prompt_query_lowercase 10
    ⟨{ cached_pages := [(1, [⟨"t", "u"⟩])], total_pages := 5, total_results := 50,
       last_data := none }, "old", 1⟩
    .exn false true "  HeLLo World  " "" ⟨initSearcher, "hello world", 1⟩ .noEffect
    (by decide)

end GSearch
